import Mathlib

set_option maxHeartbeats 1000000

/-!
A shallow embedding of the `chalicelib` websocket notification relay
(classes `Storage`, `Sender`, `Handler` of `src/chalicelib/__init__.py`).

Modelling conventions:
* Python/JSON values are the inductive `JVal`; numbers are integers (the
  application's payloads carry no fractional numbers).
* The DynamoDB table is a list of rows (`Item`); `put_item` upserts by the
  primary key `PK`, `delete_item` removes by `PK`, and `scan` returns the
  rows matching the filter in a single unpaginated page (so the source's
  `while not done` pagination loop runs its body exactly once when entered
  with `done = False`, and not at all when entered with `done = True`).
* The websocket transport is a list `live` of connection ids still open:
  `app.websocket_api.send` delivers to a live id (recorded in `outbox` as
  the payload value handed to `json.dumps`, which is injective on `JVal`)
  and raises `WebsocketDisconnectedError` for a dead one.
* A raw inbound frame is `Option JVal`: `none` is an absent or empty body
  (Python-falsy), `some data` a non-empty body that `json.loads` parsed to
  `data`.  `json.loads` itself is Python's standard library, outside this
  repository.
* Python exceptions escaping a function are `Except (PyErr × WsState)`,
  carrying the state reached when the exception was raised (writes made
  before the raise persist, since the table and transport are external).
-/

/-- A Python/JSON value as produced by `json.loads` and manipulated by the
dictionary operations of `chalicelib`. -/
inductive JVal where
  | str : String → JVal
  | num : Int → JVal
  | bool : Bool → JVal
  | null : JVal
  | arr : List JVal → JVal
  | obj : List (String × JVal) → JVal

mutual

/-- Python structural equality `==` on values. -/
def JVal.beq : JVal → JVal → Bool
  | .str a, .str b => a == b
  | .num a, .num b => a == b
  | .bool a, .bool b => a == b
  | .null, .null => true
  | .arr a, .arr b => jListBeq a b
  | .obj a, .obj b => jObjBeq a b
  | _, _ => false

/-- Python `==` on lists, elementwise. -/
def jListBeq : List JVal → List JVal → Bool
  | [], [] => true
  | a :: as, b :: bs => JVal.beq a b && jListBeq as bs
  | _, _ => false

/-- Python `==` on dicts, represented as ordered association lists. -/
def jObjBeq : List (String × JVal) → List (String × JVal) → Bool
  | [], [] => true
  | (k1, v1) :: as, (k2, v2) :: bs => k1 == k2 && JVal.beq v1 v2 && jObjBeq as bs
  | _, _ => false

end

/-- Python truthiness of a value (used by `if merchant_id and user_id:`,
`if message_data["content"]["message"]:`, `if connection_ids:`). -/
def JVal.truthy : JVal → Bool
  | .str s => !s.isEmpty
  | .num n => n != 0
  | .bool b => b
  | .null => false
  | .arr l => !l.isEmpty
  | .obj l => !l.isEmpty

/-- Python exceptions that the handler code can raise. -/
inductive PyErr where
  | typeError
  | keyError
  | attributeError
deriving DecidableEq

/-- First binding of a key in an ordered association list (dict lookup). -/
def objFind : List (String × JVal) → String → Option JVal
  | [], _ => none
  | p :: ps, k => if p.1 = k then some p.2 else objFind ps k

/-- Python `v.get(k)`: `None` for a missing key; `AttributeError` when `v`
is not a dict. -/
def pyGet (v : JVal) (k : String) : Except PyErr (Option JVal) :=
  match v with
  | .obj l => .ok (objFind l k)
  | _ => .error .attributeError

/-- Python `v.get(k, d)`: the default for a missing key; `AttributeError`
when `v` is not a dict. -/
def pyGetDefault (v : JVal) (k : String) (d : JVal) : Except PyErr JVal :=
  match v with
  | .obj l => .ok ((objFind l k).getD d)
  | _ => .error .attributeError

/-- Python subscription `v[k]` with a string key: `KeyError` for a missing
dict key, `TypeError` for a non-dict. -/
def pySub (v : JVal) (k : String) : Except PyErr JVal :=
  match v with
  | .obj l =>
    match objFind l k with
    | some x => .ok x
    | none => .error .keyError
  | _ => .error .typeError

/-- Membership of a value in a Python list, via `==`. -/
def jMem (x : JVal) : List JVal → Bool
  | [] => false
  | y :: ys => JVal.beq y x || jMem x ys

/-- Whether `needle` occurs as a contiguous run inside `hay`. -/
def charsInfix (needle : List Char) : List Char → Bool
  | [] => needle.isEmpty
  | c :: cs => needle.isPrefixOf (c :: cs) || charsInfix needle cs

mutual

/-- Python `str()` of a value, as used by the f-string `f"\x7buser_id\x7d"`
in `Storage.get_connection_ids_by_reference`. -/
def pyStr : JVal → String
  | .str s => s
  | .num n => toString n
  | .bool b => if b then "True" else "False"
  | .null => "None"
  | .arr l => "[" ++ pyReprList l ++ "]"
  | .obj l => "\x7b" ++ pyReprObj l ++ "\x7d"

/-- Python `repr()` of a value (container elements print with `repr`). -/
def pyRepr : JVal → String
  | .str s => "\x27" ++ s ++ "\x27"
  | .num n => toString n
  | .bool b => if b then "True" else "False"
  | .null => "None"
  | .arr l => "[" ++ pyReprList l ++ "]"
  | .obj l => "\x7b" ++ pyReprObj l ++ "\x7d"

/-- Comma-separated `repr`s of list elements. -/
def pyReprList : List JVal → String
  | [] => ""
  | [x] => pyRepr x
  | x :: y :: xs => pyRepr x ++ ", " ++ pyReprList (y :: xs)

/-- Comma-separated `repr`s of dict entries. -/
def pyReprObj : List (String × JVal) → String
  | [] => ""
  | [(k, v)] => "\x27" ++ k ++ "\x27: " ++ pyRepr v
  | (k, v) :: p :: ps => "\x27" ++ k ++ "\x27: " ++ pyRepr v ++ ", " ++ pyReprObj (p :: ps)

end

/-- Python `x in c`: list membership, substring test for strings, key
membership for dicts; `TypeError` on a non-container (in particular on
`None`, which `dict.get` returns for a missing `audience.message`). -/
def pyIn (x : JVal) (container : Option JVal) : Except PyErr Bool :=
  match container with
  | none => .error .typeError
  | some (.arr l) => .ok (jMem x l)
  | some (.str s) =>
    match x with
    | .str xs => .ok (charsInfix xs.toList s.toList)
    | _ => .error .typeError
  | some (.obj l) =>
    match x with
    | .arr _ => .error .typeError
    | .obj _ => .error .typeError
    | _ => .ok (jMem x (l.map (fun p => JVal.str p.1)))
  | some _ => .error .typeError

/-- Python iteration `for u in v`: a string yields its characters as
one-character strings, a list its elements, a dict its keys; anything else
raises `TypeError`. -/
def pyIter (v : JVal) : Except PyErr (List JVal) :=
  match v with
  | .str s => .ok (s.toList.map (fun c => JVal.str (String.singleton c)))
  | .arr l => .ok l
  | .obj l => .ok (l.map (fun p => JVal.str p.1))
  | _ => .error .typeError

/-- One element of a Broadcast Target Set: the dict with keys `cid` (the
row's `PK`) and `user_id` built by
`Storage.get_connection_ids_by_reference`. -/
structure Target where
  cid : String
  user_id : JVal

/-- A row of the DynamoDB table, as written by
`Storage.set_user_by_connection_id`. -/
structure Item where
  PK : String
  merchant_id : JVal
  user_id : JVal
  ExpirationTime : Nat

/-- The observable state threaded through the embedding: the DynamoDB
table, the connection ids the API Gateway still considers live, and the
messages delivered so far. -/
structure WsState where
  table : List Item
  live : List String
  outbox : List (String × JVal)

/-- DynamoDB `put_item`: upsert by the primary key `PK`. -/
def dynamoPut (table : List Item) (item : Item) : List Item :=
  table.filter (fun i => i.PK ≠ item.PK) ++ [item]

/-- Model of `Storage.set_user_by_connection_id`: store the scope extracted from a
frontend message, keyed by the connection id.  The surrounding
`try/except` only logs store failures, which the pure table cannot
produce. -/
def Storage.set_user_by_connection_id (table : List Item) (connection_id : String)
    (merchant_id user_id : JVal) (ts : Nat) : List Item :=
  dynamoPut table ⟨connection_id, merchant_id, user_id, ts⟩

/-- One `scan` page with
`FilterExpression = Key("merchant_id").eq(merchant_id) & Key("user_id").eq(f"...")`:
the merchant is compared as the raw value, the user id against the
f-string rendering of the loop variable. -/
def scanMerchantUser (table : List Item) (merchant_id : JVal) (u : JVal) : List Item :=
  table.filter (fun i =>
    JVal.beq i.merchant_id merchant_id && JVal.beq i.user_id (JVal.str (pyStr u)))

/-- The `for user_id in user_ids` loop of
`Storage.get_connection_ids_by_reference`, with its `done` pagination
flag.  The flag is initialised once, before the loop, and never reset
inside it, so once the first user id's scan pages are exhausted
(`LastEvaluatedKey` absent, `done = True`) the `while not done` body of
every later user id is skipped entirely. -/
def scanUsersLoop (table : List Item) (merchant_id : JVal) :
    List JVal → Bool → List Item
  | [], _ => []
  | u :: us, done =>
    (if done then [] else scanMerchantUser table merchant_id u)
      ++ scanUsersLoop table merchant_id us true

/-- Model of `Storage.get_connection_ids_by_reference`: resolve a broadcast scope to
its Broadcast Target Set.  The sentinel `"__all__"` scans on the merchant
alone; any other selector is iterated (a plain string iterates as its
characters) and scanned per user id under the shared `done` flag. -/
def Storage.get_connection_ids_by_reference (table : List Item) (merchant_id : JVal)
    (user_ids : JVal) : Except PyErr (List Target) :=
  if JVal.beq user_ids (JVal.str "__all__") then
    .ok ((table.filter (fun i => JVal.beq i.merchant_id merchant_id)).map
      (fun i => ⟨i.PK, i.user_id⟩))
  else
    match pyIter user_ids with
    | .error e => .error e
    | .ok us => .ok ((scanUsersLoop table merchant_id us false).map
        (fun i => ⟨i.PK, i.user_id⟩))

/-- Model of `Storage.delete_connection`: delete the row keyed by the connection id;
`if connection_id:` guards the call, so an empty id touches nothing. -/
def Storage.delete_connection (table : List Item) (connection_id : String) : List Item :=
  if connection_id ≠ "" then table.filter (fun i => i.PK ≠ connection_id) else table

/-- Model of `Sender.send`: hand the payload to the websocket transport.  When the
transport raises `WebsocketDisconnectedError` (the id is no longer live)
the connection is deleted from the table and the error is swallowed; no
other outcome is possible, so `send` is total. -/
def Sender.send (st : WsState) (connection_id : String) (data : JVal) : WsState :=
  if st.live.contains connection_id then
    { st with outbox := st.outbox ++ [(connection_id, data)] }
  else
    { st with table := Storage.delete_connection st.table connection_id }

/-- Model of `del message_data["content"]["message"]` on the deep copy: drop the
`message` binding of the dict held under `content`. -/
def objRemove (v : JVal) (k : String) : JVal :=
  match v with
  | .obj l => .obj (l.filter (fun p => p.1 ≠ k))
  | x => x

/-- The deep copy after the conditional deletion: the value sent to an
unauthorised recipient whose `content.message` was truthy. -/
def delMessage (v : JVal) : JVal :=
  match v with
  | .obj l => .obj (l.map (fun p =>
      if p.1 = "content" then (p.1, objRemove p.2 "message") else p))
  | x => x

/-- The payload handed to `send` for one target of `Sender.broadcast`, as a
function of the original payload and that target alone (the loop body
deep-copies `data` and then redacts only the copy).  Inlined, in source
order: evaluate `data.get("audience").get("message")`, test membership of
the target's `user_id`, and in the unauthorised branch evaluate
`message_data["content"]["message"]` and delete it when truthy. -/
def recipientMessage (data : JVal) (t : Target) : Except PyErr JVal :=
  match pyGet data "audience" with
  | .error e => .error e
  | .ok aud? =>
    match (match aud? with
           | none => Except.error PyErr.attributeError
           | some a => pyGet a "message") with
    | .error e => .error e
    | .ok container =>
      match pyIn t.user_id container with
      | .error e => .error e
      | .ok true => .ok data
      | .ok false =>
        match pySub data "content" with
        | .error e => .error e
        | .ok content =>
          match pySub content "message" with
          | .error e => .error e
          | .ok m => .ok (if m.truthy then delMessage data else data)

/-- The `for cid in connection_ids` loop of `Sender.broadcast`.  An
exception raised while computing one target's message aborts the loop and
propagates, carrying the state already reached; otherwise the message is
sent and the loop continues with the next target. -/
def broadcastLoop (data : JVal) : WsState → List Target → Except (PyErr × WsState) WsState
  | st, [] => .ok st
  | st, t :: ts =>
    match recipientMessage data t with
    | .error e => .error (e, st)
    | .ok msg => broadcastLoop data (Sender.send st t.cid msg) ts

/-- Model of `Sender.broadcast`: send a per-recipient-tailored copy of `data` to
every target, returning the original target list. -/
def Sender.broadcast (st : WsState) (connection_ids : List Target) (data : JVal) :
    Except (PyErr × WsState) (WsState × List Target) :=
  match broadcastLoop data st connection_ids with
  | .ok st' => .ok (st', connection_ids)
  | .error e => .error e

/-- Model of `data.get("id").get("type")`: `AttributeError` when the identity block
is absent (`None.get`) or when `data` or the block is not a dict. -/
def getClient (data : JVal) : Except PyErr (Option JVal) :=
  match pyGet data "id" with
  | .error e => .error e
  | .ok none => .error .attributeError
  | .ok (some i) => pyGet i "type"

/-- Run a pure Python expression inside a handler: an exception it raises
propagates with the current external state attached. -/
def withSt (st : WsState) (x : Except PyErr α) (k : α → Except (PyErr × WsState) β) :
    Except (PyErr × WsState) β :=
  match x with
  | .error e => .error (e, st)
  | .ok a => k a

/-- Model of `Handler.handle_frontend`: require truthy `merchant_id` and `user_id`,
else `raise TypeError("merchant_id and user_id is required")`; on success
write the registration and return the connection id. -/
def Handler.handle_frontend (st : WsState) (connection_id : String)
    (merchant_id user_id : JVal) (ts : Nat) :
    Except (PyErr × WsState) (WsState × String) :=
  if merchant_id.truthy && user_id.truthy then
    .ok ({ st with table :=
            Storage.set_user_by_connection_id st.table connection_id merchant_id user_id ts },
         connection_id)
  else
    .error (.typeError, st)

/-- Model of `Handler.handle_backend`: inside `try`, require truthy `merchant_id`
and `user_id` (else `raise TypeError`) and resolve the targets; the
`except Exception` arm logs any failure and yields the empty list. -/
def Handler.handle_backend (table : List Item) (merchant_id user_id : JVal) : List Target :=
  match (if merchant_id.truthy && user_id.truthy then
           Storage.get_connection_ids_by_reference table merchant_id user_id
         else
           Except.error PyErr.typeError) with
  | .ok l => l
  | .error _ => []

/-- Model of `Handler.handle`, the entry point.  `none` models a Python-falsy body
(absent or empty), which is only logged.  Otherwise the role, user
selector and merchant id are extracted in source order and dispatched;
`now` is the clock value `int(time.time())` read by `handle_frontend`. -/
def Handler.handle (st : WsState) (connection_id : String) (message : Option JVal)
    (now : Nat) : Except (PyErr × WsState) WsState :=
  match message with
  | none => .ok st
  | some data =>
    withSt st (getClient data) fun client =>
    withSt st (pyGetDefault data "audience" (JVal.obj [])) fun aud =>
    withSt st (pyGetDefault aud "data" (JVal.str "")) fun user_id =>
    withSt st (pyGetDefault data "id" (JVal.obj [])) fun idblock =>
    withSt st (pyGetDefault idblock "merchant_id" (JVal.str "")) fun merchant_id =>
    if (match client with | some c => JVal.beq c (JVal.str "frontend") | none => false) then
      match Handler.handle_frontend st connection_id merchant_id user_id now with
      | .ok (st', _) => .ok st'
      | .error e => .error e
    else if (match client with | some c => JVal.beq c (JVal.str "backend") | none => false) then
      let connection_ids := Handler.handle_backend st.table merchant_id user_id
      if connection_ids.isEmpty then
        .ok st
      else
        match Sender.broadcast st connection_ids data with
        | .ok (st', _) => .ok st'
        | .error e => .error e
    else if (match client with | some c => JVal.beq c (JVal.str "ping") | none => false) then
      .ok (Sender.send st connection_id (JVal.str "pong"))
    else
      .ok st

/-! ## Helper lemmas -/

/-- Python `==` against a string literal forces the value to be that
string. -/
theorem JVal.beq_str_right {x : JVal} {s : String} (h : JVal.beq x (JVal.str s) = true) :
    x = JVal.str s := by
  cases x <;> simp_all [JVal.beq]

/-- Once the shared pagination flag is `True`, every later user id of the
`for` loop contributes nothing. -/
theorem scanUsersLoop_done (table : List Item) (m : JVal) (us : List JVal) :
    scanUsersLoop table m us true = [] := by
  induction us with
  | nil => rfl
  | cons u us ih => simp [scanUsersLoop, ih]

/-- Every row collected by the per-user scan loop was matched against the
f-string rendering of one of the iterated user ids. -/
theorem scanUsersLoop_user_id (table : List Item) (m : JVal) :
    ∀ (us : List JVal) (d : Bool) (i : Item), i ∈ scanUsersLoop table m us d →
      ∃ u ∈ us, i.user_id = JVal.str (pyStr u) := by
  intro us
  induction us with
  | nil => intro d i h; simp [scanUsersLoop] at h
  | cons u us ih =>
    intro d i h
    simp only [scanUsersLoop] at h
    rcases List.mem_append.mp h with h1 | h2
    · cases d with
      | true => simp at h1
      | false =>
        simp only [Bool.false_eq_true, if_false, scanMerchantUser] at h1
        refine ⟨u, List.mem_cons_self u us, ?_⟩
        have hcond := (List.mem_filter.mp h1).2
        rw [Bool.and_eq_true] at hcond
        exact JVal.beq_str_right hcond.2
    · rcases ih true i h2 with ⟨u', hu', hiu⟩
      exact ⟨u', List.mem_cons_of_mem u hu', hiu⟩

/-! ## Claims -/

/-- Two registrations under the same merchant for two distinct users. -/
def tblTwoUsers : List Item :=
  [⟨"c1", .str "m", .str "1", 0⟩, ⟨"c2", .str "m", .str "2", 0⟩]

/-- C1, evaluated at the failing input: resolving with the explicit
two-element selector `["1", "2"]` returns only the first user id's match,
although the second user id's scan page is nonempty (its registration
exists); the `done` flag left over from the first user id suppresses every
later scan. -/
theorem resolve_explicit_sequence_first_user_only :
    Storage.get_connection_ids_by_reference tblTwoUsers (JVal.str "m")
      (JVal.arr [JVal.str "1", JVal.str "2"]) = .ok [⟨"c1", JVal.str "1"⟩] ∧
    scanMerchantUser tblTwoUsers (JVal.str "m") (JVal.str "2")
      = [⟨"c2", JVal.str "m", JVal.str "2", 0⟩] :=
  ⟨rfl, rfl⟩

/-- C2 counterexample: a parsed message lacking the nested identity block
makes `handle` raise `AttributeError` (from `data.get("id").get("type")`),
contradicting the claim that malformed input raises no error. -/
theorem handle_missing_id_block_raises :
    Handler.handle ⟨[], [], []⟩ "c" (some (JVal.obj [])) 0
      = .error (.attributeError, ⟨[], [], []⟩) :=
  rfl

/-- C2 (amended): a Python-falsy (absent or empty) raw message is only
logged: no error, no state change.  A message that parses but on which the
role extraction `data.get("id").get("type")` raises, propagates that error
to the caller with the state untouched. -/
theorem handle_absent_message_noop (st : WsState) (cid : String) (now : Nat) :
    Handler.handle st cid none now = .ok st ∧
    ∀ (data : JVal) (e : PyErr), getClient data = .error e →
      Handler.handle st cid (some data) now = .error (e, st) := by
  refine ⟨rfl, ?_⟩
  intro data e h
  simp [Handler.handle, withSt, h]

/-- Witness for the amended C2 at concrete inputs. -/
theorem handle_absent_message_noop_witness :
    Handler.handle ⟨[], [], []⟩ "c" none 0 = .ok ⟨[], [], []⟩ ∧
    Handler.handle ⟨[], [], []⟩ "c" (some (JVal.obj [("x", JVal.null)])) 0
      = .error (.attributeError, ⟨[], [], []⟩) :=
  ⟨(handle_absent_message_noop ⟨[], [], []⟩ "c" 0).1,
   (handle_absent_message_noop ⟨[], [], []⟩ "c" 0).2 _ _ rfl⟩

/-- The table after the C9 registration. -/
def tblRoundTrip : List Item :=
  Storage.set_user_by_connection_id [] "1092" (JVal.str "staging.ottu.dev")
    (JVal.str "72") 1092387456

/-- C9: register the connection, resolve the explicit selector to exactly
its target, delete the connection, and resolve to the empty sequence. -/
theorem register_resolve_delete_roundtrip :
    Storage.get_connection_ids_by_reference tblRoundTrip (JVal.str "staging.ottu.dev")
      (JVal.arr [JVal.str "72"]) = .ok [⟨"1092", JVal.str "72"⟩] ∧
    Storage.get_connection_ids_by_reference
      (Storage.delete_connection tblRoundTrip "1092") (JVal.str "staging.ottu.dev")
      (JVal.arr [JVal.str "72"]) = .ok [] :=
  ⟨rfl, rfl⟩

/-- C10: a plain-string selector other than the sentinel is iterated as
its individual characters: resolution coincides with resolving the list of
its one-character strings, and whenever the selector has two or more
characters no returned target carries the whole selector as its user id. -/
theorem resolve_string_selector_chars (table : List Item) (m : JVal) (s : String)
    (hne : s ≠ "__all__") :
    Storage.get_connection_ids_by_reference table m (JVal.str s) =
      Storage.get_connection_ids_by_reference table m
        (JVal.arr (s.toList.map (fun c => JVal.str (String.singleton c)))) ∧
    (∀ ts r, 2 ≤ s.length →
      Storage.get_connection_ids_by_reference table m (JVal.str s) = .ok ts →
      r ∈ ts → r.user_id ≠ JVal.str s) := by
  have hb : JVal.beq (JVal.str s) (JVal.str "__all__") = false := by
    simp [JVal.beq, beq_eq_false_iff_ne]
    exact hne
  have hb2 : JVal.beq (JVal.arr (s.toList.map (fun c => JVal.str (String.singleton c))))
      (JVal.str "__all__") = false := rfl
  constructor
  · simp only [Storage.get_connection_ids_by_reference]
    rw [hb, hb2]
    rfl
  · intro ts r hlen hts hr
    simp only [Storage.get_connection_ids_by_reference] at hts
    rw [hb] at hts
    have hts2 : Except.ok ((scanUsersLoop table m
        (s.toList.map (fun c => JVal.str (String.singleton c))) false).map
        (fun i => (⟨i.PK, i.user_id⟩ : Target))) = Except.ok ts := hts
    have hts3 := Except.ok.inj hts2
    rw [← hts3] at hr
    rcases List.mem_map.mp hr with ⟨i, hi, hri⟩
    rcases scanUsersLoop_user_id table m _ _ _ hi with ⟨u, hu, hiu⟩
    rcases List.mem_map.mp hu with ⟨c, _, hcu⟩
    intro hcontra
    have h1 : r.user_id = JVal.str (pyStr u) := by rw [← hri]; exact hiu
    rw [← hcu] at h1
    have h2 : JVal.str s = JVal.str (String.singleton c) := by
      rw [← hcontra, h1]
      rfl
    have h3 : s = String.singleton c := by injection h2
    have h4 : s.length = 1 := by rw [h3]; rfl
    omega

/-- Witness for C10 at a concrete table and the selector string of the
test fixture. -/
theorem resolve_string_selector_chars_witness :
    ("72" ≠ "__all__") ∧
    Storage.get_connection_ids_by_reference tblTwoUsers (JVal.str "m") (JVal.str "72") =
      Storage.get_connection_ids_by_reference tblTwoUsers (JVal.str "m")
        (JVal.arr ((String.toList "72").map (fun c => JVal.str (String.singleton c)))) :=
  ⟨by decide, (resolve_string_selector_chars tblTwoUsers (JVal.str "m") "72" (by decide)).1⟩

/-- A successful dict subscription exposes the dict and the binding. -/
theorem pySub_obj_some {v : JVal} {k : String} {x : JVal} (h : pySub v k = Except.ok x) :
    ∃ l, v = JVal.obj l ∧ objFind l k = some x := by
  cases v with
  | obj l =>
    refine ⟨l, rfl, ?_⟩
    simp only [pySub] at h
    cases hx : objFind l k with
    | none => simp only [hx] at h; exact absurd h (by simp)
    | some y => simp only [hx] at h; exact congrArg some (Except.ok.inj h)
  | str s => simp [pySub] at h
  | num n => simp [pySub] at h
  | bool b => simp [pySub] at h
  | null => simp [pySub] at h
  | arr a => simp [pySub] at h

/-- Removing a key removes its binding. -/
theorem objFind_filter_ne (l : List (String × JVal)) (k : String) :
    objFind (l.filter (fun p => p.1 ≠ k)) k = none := by
  induction l with
  | nil => rfl
  | cons p ps ih =>
    rw [List.filter_cons]
    by_cases h : p.1 = k
    · rw [if_neg (by simp [h])]
      exact ih
    · rw [if_pos (by simp [h])]
      rw [objFind, if_neg h]
      exact ih

/-- Removing a key leaves every other binding in place. -/
theorem objFind_filter_other (l : List (String × JVal)) (k k' : String) (h : k' ≠ k) :
    objFind (l.filter (fun p => p.1 ≠ k)) k' = objFind l k' := by
  induction l with
  | nil => rfl
  | cons p ps ih =>
    rw [List.filter_cons]
    by_cases hp : p.1 = k
    · rw [if_neg (by simp [hp])]
      rw [ih, objFind, if_neg (by rw [hp]; exact fun hc => h hc.symm)]
    · rw [if_pos (by simp [hp])]
      rw [objFind, objFind, ih]

/-- The conditional deletion rewrites the first `content` binding. -/
theorem objFind_map_delContent_content (dl : List (String × JVal)) (c : JVal)
    (h : objFind dl "content" = some c) :
    objFind (dl.map (fun p => if p.1 = "content" then (p.1, objRemove p.2 "message") else p))
      "content" = some (objRemove c "message") := by
  induction dl with
  | nil => simp [objFind] at h
  | cons p ps ih =>
    by_cases hp : p.1 = "content"
    · rw [objFind, if_pos hp] at h
      simp only [List.map_cons, if_pos hp]
      rw [objFind, if_pos hp]
      rw [Option.some.inj h]
    · rw [objFind, if_neg hp] at h
      simp only [List.map_cons, if_neg hp]
      rw [objFind, if_neg hp]
      exact ih h

/-- The conditional deletion leaves every non-`content` binding as it
was. -/
theorem objFind_map_delContent_other (dl : List (String × JVal)) (k : String)
    (hk : k ≠ "content") :
    objFind (dl.map (fun p => if p.1 = "content" then (p.1, objRemove p.2 "message") else p)) k
      = objFind dl k := by
  induction dl with
  | nil => rfl
  | cons p ps ih =>
    by_cases hp : p.1 = "content"
    · simp only [List.map_cons, if_pos hp]
      rw [objFind, objFind, ih, if_neg (by rw [hp]; exact fun hc => hk hc.symm),
        if_neg (by rw [hp]; exact fun hc => hk hc.symm)]
    · simp only [List.map_cons, if_neg hp]
      rw [objFind, objFind, ih]

/-- When every target's message computation succeeds and every target is
live, the broadcast loop delivers exactly one message per target, each
computed from the original payload. -/
theorem broadcastLoop_all_live_ok (data : JVal) (msgOf : Target → JVal) :
    ∀ (ts : List Target) (st : WsState),
      (∀ t ∈ ts, recipientMessage data t = Except.ok (msgOf t)) →
      (∀ t ∈ ts, st.live.contains t.cid = true) →
      broadcastLoop data st ts =
        .ok { st with outbox := st.outbox ++ ts.map (fun t => (t.cid, msgOf t)) } := by
  intro ts
  induction ts with
  | nil =>
    intro st _ _
    simp [broadcastLoop]
  | cons t ts ih =>
    intro st hmsg hlive
    have h1 := hmsg t (List.mem_cons_self t ts)
    have h2 := hlive t (List.mem_cons_self t ts)
    have hsend : Sender.send st t.cid (msgOf t)
        = { st with outbox := st.outbox ++ [(t.cid, msgOf t)] } := by
      unfold Sender.send
      rw [if_pos h2]
    simp only [broadcastLoop, h1, hsend]
    rw [ih { st with outbox := st.outbox ++ [(t.cid, msgOf t)] }
        (fun u hu => hmsg u (List.mem_cons_of_mem t hu))
        (fun u hu => hlive u (List.mem_cons_of_mem t hu))]
    simp [List.append_assoc]

/-- A broadcast payload whose `content` dict has no `message` key; its
allow-list is empty, so any target is unauthorised. -/
def payloadNoMessage : JVal :=
  .obj [("audience", .obj [("message", .arr [])]),
        ("content", .obj [("alert", .str "x")])]

/-- C3 counterexample: for an unauthorised target, an absent
`content.message` is not tolerated — `message_data["content"]["message"]`
raises `KeyError`, which propagates out of `broadcast`, and nothing is
sent; the claim said the copy is sent as-is with no error. -/
theorem broadcast_absent_message_raises :
    Sender.broadcast ⟨[], ["c"], []⟩ [⟨"c", JVal.str "u"⟩] payloadNoMessage
      = .error (.keyError, ⟨[], ["c"], []⟩) :=
  rfl

/-- C3 (amended): for a single unauthorised target (its user id outside
the `audience.message` allow-list), if `content.message` is present and
truthy it is deleted from the deep copy and the reduced copy is sent; if
present and falsy the copy is sent unreduced; if absent, `KeyError`
propagates and nothing is sent. -/
theorem broadcast_unauthorised_redaction (st : WsState) (t : Target) (data aud c : JVal)
    (l : List JVal)
    (ha : pyGet data "audience" = Except.ok (some aud))
    (hm : pyGet aud "message" = Except.ok (some (JVal.arr l)))
    (hni : jMem t.user_id l = false)
    (hc : pySub data "content" = Except.ok c) :
    Sender.broadcast st [t] data =
      match pySub c "message" with
      | .error e => .error (e, st)
      | .ok m => .ok (Sender.send st t.cid (if m.truthy then delMessage data else data), [t]) := by
  cases hpm : pySub c "message" with
  | ok m =>
    have hr : recipientMessage data t
        = Except.ok (if m.truthy then delMessage data else data) := by
      simp only [recipientMessage, ha, hm, pyIn, hni, hc, hpm]
    simp [Sender.broadcast, broadcastLoop, hr]
  | error e =>
    have hr : recipientMessage data t = Except.error e := by
      simp only [recipientMessage, ha, hm, pyIn, hni, hc, hpm]
    simp [Sender.broadcast, broadcastLoop, hr]

/-- A broadcast payload with a truthy `content.message` and an empty
allow-list. -/
def payloadTruthyMessage : JVal :=
  .obj [("audience", .obj [("message", .arr [])]),
        ("content", .obj [("message", .str "hi"), ("x", .str "y")])]

/-- Witness for the amended C3: a truthy `content.message` is stripped for
the unauthorised target. -/
theorem broadcast_unauthorised_redaction_witness :
    Sender.broadcast ⟨[], ["c"], []⟩ [⟨"c", JVal.str "u"⟩] payloadTruthyMessage =
      match pySub (JVal.obj [("message", JVal.str "hi"), ("x", JVal.str "y")]) "message" with
      | .error e => .error (e, (⟨[], ["c"], []⟩ : WsState))
      | .ok m => .ok (Sender.send ⟨[], ["c"], []⟩ "c"
          (if m.truthy then delMessage payloadTruthyMessage else payloadTruthyMessage),
          [⟨"c", JVal.str "u"⟩]) :=
  broadcast_unauthorised_redaction ⟨[], ["c"], []⟩ ⟨"c", JVal.str "u"⟩ payloadTruthyMessage
    (JVal.obj [("message", JVal.arr [])])
    (JVal.obj [("message", JVal.str "hi"), ("x", JVal.str "y")])
    [] rfl rfl rfl rfl

/-- A broadcast payload whose `content.message` is present but falsy (the
empty string). -/
def payloadFalsyMessage : JVal :=
  .obj [("audience", .obj [("message", .arr [])]),
        ("content", .obj [("message", .str ""), ("x", .str "y")])]

/-- C4 counterexample: with a falsy (empty-string) `content.message`, the
unauthorised recipient is sent the payload with `content.message` still
present, not absent: the guard `if message_data["content"]["message"]:`
skips the deletion. -/
theorem broadcast_falsy_message_not_stripped :
    Sender.broadcast ⟨[], ["c"], []⟩ [⟨"c", JVal.str "u"⟩] payloadFalsyMessage
      = .ok (⟨[], ["c"], [("c", payloadFalsyMessage)]⟩, [⟨"c", JVal.str "u"⟩]) ∧
    pySub payloadFalsyMessage "content"
      = .ok (JVal.obj [("message", JVal.str ""), ("x", JVal.str "y")]) ∧
    objFind [("message", JVal.str ""), ("x", JVal.str "y")] "message"
      = some (JVal.str "") :=
  ⟨rfl, rfl, rfl⟩

/-- C4 (amended): for a payload whose `content.message` is present and
truthy, a broadcast over live targets sends every allow-listed target the
original payload intact and every other target the copy with
`content.message` deleted; the deletion leaves the `content` dict's other
bindings and every other top-level field unchanged. -/
theorem broadcast_allowlist_redaction (st : WsState) (ts : List Target) (data aud c m : JVal)
    (l : List JVal)
    (ha : pyGet data "audience" = Except.ok (some aud))
    (hm : pyGet aud "message" = Except.ok (some (JVal.arr l)))
    (hc : pySub data "content" = Except.ok c)
    (hmsg : pySub c "message" = Except.ok m)
    (ht : m.truthy = true)
    (hlive : ∀ t ∈ ts, st.live.contains t.cid = true) :
    Sender.broadcast st ts data =
      .ok ({ st with outbox := st.outbox ++ ts.map (fun t =>
              (t.cid, if jMem t.user_id l then data else delMessage data)) }, ts) ∧
    pySub (delMessage data) "content" = .ok (objRemove c "message") ∧
    pySub (objRemove c "message") "message" = .error .keyError ∧
    (∀ k, k ≠ "content" → pyGet (delMessage data) k = pyGet data k) ∧
    (∀ k, k ≠ "message" → pySub (objRemove c "message") k = pySub c k) := by
  obtain ⟨dl, rfl, hofc⟩ := pySub_obj_some hc
  obtain ⟨cl, rfl, hofm⟩ := pySub_obj_some hmsg
  refine ⟨?_, ?_, ?_, ?_, ?_⟩
  · have hmsgOf : ∀ t ∈ ts, recipientMessage (JVal.obj dl) t
        = Except.ok (if jMem t.user_id l then JVal.obj dl else delMessage (JVal.obj dl)) := by
      intro t _
      cases hjm : jMem t.user_id l with
      | true => simp only [recipientMessage, ha, hm, pyIn, hjm, if_pos]
      | false => simp only [recipientMessage, ha, hm, pyIn, hjm, hc, hmsg, ht, if_neg, if_pos,
          Bool.false_eq_true, if_false]
    have hloop := broadcastLoop_all_live_ok (JVal.obj dl)
      (fun t => if jMem t.user_id l then JVal.obj dl else delMessage (JVal.obj dl))
      ts st hmsgOf hlive
    simp [Sender.broadcast, hloop]
  · simp only [delMessage, pySub, objFind_map_delContent_content dl _ hofc]
  · simp only [objRemove, pySub, objFind_filter_ne]
  · intro k hk
    simp only [delMessage, pyGet, objFind_map_delContent_other dl k hk]
  · intro k hk
    simp only [objRemove, pySub, objFind_filter_other cl "message" k hk]

/-- The payload of the C4 witness: allow-list `["72"]`, truthy
`content.message`. -/
def payloadAllowlist : JVal :=
  .obj [("audience", .obj [("message", .arr [.str "72"])]),
        ("content", .obj [("message", .str "hi"), ("x", .str "y")])]

/-- Witness for the amended C4: two live targets, one allow-listed, one
not. -/
theorem broadcast_allowlist_redaction_witness :
    Sender.broadcast ⟨[], ["a", "b"], []⟩
        ([⟨"a", JVal.str "72"⟩, ⟨"b", JVal.str "99"⟩] : List Target) payloadAllowlist =
      .ok ({ table := [], live := ["a", "b"], outbox :=
              ([] : List (String × JVal)) ++
                ([⟨"a", JVal.str "72"⟩, ⟨"b", JVal.str "99"⟩] : List Target).map (fun t =>
                  (t.cid, if jMem t.user_id [JVal.str "72"] then payloadAllowlist
                          else delMessage payloadAllowlist)) },
           ([⟨"a", JVal.str "72"⟩, ⟨"b", JVal.str "99"⟩] : List Target)) :=
  (broadcast_allowlist_redaction ⟨[], ["a", "b"], []⟩
    ([⟨"a", JVal.str "72"⟩, ⟨"b", JVal.str "99"⟩] : List Target) payloadAllowlist
    (JVal.obj [("message", JVal.arr [JVal.str "72"])])
    (JVal.obj [("message", JVal.str "hi"), ("x", JVal.str "y")])
    (JVal.str "hi") [JVal.str "72"]
    rfl rfl rfl rfl rfl (by decide)).1

/-- Specification of a successful broadcast loop: the live set is
untouched and the newly delivered messages pair the live targets, in
order, with a message computed from the original payload and that target
alone. -/
theorem broadcastLoop_ok_spec (data : JVal) :
    ∀ (ts : List Target) (st st' : WsState),
      broadcastLoop data st ts = .ok st' →
      st'.live = st.live ∧
      ∃ delivered, st'.outbox = st.outbox ++ delivered ∧
        List.Forall₂ (fun (t : Target) (p : String × JVal) =>
            p.1 = t.cid ∧ recipientMessage data t = Except.ok p.2)
          (ts.filter (fun t => st.live.contains t.cid)) delivered := by
  intro ts
  induction ts with
  | nil =>
    intro st st' h
    have hst : st = st' := Except.ok.inj h
    subst hst
    exact ⟨rfl, [], by simp, List.Forall₂.nil⟩
  | cons t ts ih =>
    intro st st' h
    simp only [broadcastLoop] at h
    cases hrm : recipientMessage data t with
    | error e => simp only [hrm] at h; exact absurd h (by simp)
    | ok m =>
      simp only [hrm] at h
      by_cases hl : st.live.contains t.cid = true
      · have hsend : Sender.send st t.cid m
            = { st with outbox := st.outbox ++ [(t.cid, m)] } := by
          unfold Sender.send
          rw [if_pos hl]
        rw [hsend] at h
        rcases ih _ _ h with ⟨hlive, delivered, hout, hfa⟩
        refine ⟨hlive, (t.cid, m) :: delivered, ?_, ?_⟩
        · rw [hout]; simp
        · rw [List.filter_cons, if_pos hl]
          exact List.Forall₂.cons ⟨rfl, hrm⟩ hfa
      · have hsend : Sender.send st t.cid m
            = { st with table := Storage.delete_connection st.table t.cid } := by
          unfold Sender.send
          rw [if_neg hl]
        rw [hsend] at h
        rcases ih _ _ h with ⟨hlive, delivered, hout, hfa⟩
        refine ⟨hlive, delivered, hout, ?_⟩
        rw [List.filter_cons, if_neg hl]
        exact hfa

/-- C5: a successful broadcast returns the original target set, leaves
the live set alone, and appends to the outbox one message per live
target, each message determined by the original payload and that target
alone (`recipientMessage`); the loop's deep copy keeps each recipient's
redaction from reaching the shared original or any other recipient's
copy. -/
theorem broadcast_deepcopy_isolation (st : WsState) (ts : List Target) (data : JVal)
    (st' : WsState) (ret : List Target)
    (h : Sender.broadcast st ts data = Except.ok (st', ret)) :
    ret = ts ∧ st'.live = st.live ∧
    ∃ delivered, st'.outbox = st.outbox ++ delivered ∧
      List.Forall₂ (fun (t : Target) (p : String × JVal) =>
          p.1 = t.cid ∧ recipientMessage data t = Except.ok p.2)
        (ts.filter (fun t => st.live.contains t.cid)) delivered := by
  have hloop : broadcastLoop data st ts = .ok st' ∧ ret = ts := by
    unfold Sender.broadcast at h
    cases hx : broadcastLoop data st ts with
    | error e => rw [hx] at h; exact absurd h (by simp)
    | ok s =>
      rw [hx] at h
      have hp := Except.ok.inj h
      exact ⟨by rw [(Prod.mk.injEq _ _ _ _).mp hp |>.1], ((Prod.mk.injEq _ _ _ _).mp hp).2.symm⟩
  rcases broadcastLoop_ok_spec data ts st st' hloop.1 with ⟨hlive, delivered, hout, hfa⟩
  exact ⟨hloop.2, hlive, delivered, hout, hfa⟩

/-- Witness for C5 at a concrete single-target broadcast. -/
theorem broadcast_deepcopy_isolation_witness :
    ([⟨"a", JVal.str "72"⟩] : List Target) = [⟨"a", JVal.str "72"⟩] ∧
    (⟨[], ["a"], [("a", payloadAllowlist)]⟩ : WsState).live = (⟨[], ["a"], []⟩ : WsState).live ∧
    ∃ delivered,
      (⟨[], ["a"], [("a", payloadAllowlist)]⟩ : WsState).outbox
        = (⟨[], ["a"], []⟩ : WsState).outbox ++ delivered ∧
      List.Forall₂ (fun (t : Target) (p : String × JVal) =>
          p.1 = t.cid ∧ recipientMessage payloadAllowlist t = Except.ok p.2)
        (([⟨"a", JVal.str "72"⟩] : List Target).filter
          (fun t => (⟨[], ["a"], []⟩ : WsState).live.contains t.cid)) delivered :=
  broadcast_deepcopy_isolation ⟨[], ["a"], []⟩ [⟨"a", JVal.str "72"⟩] payloadAllowlist
    ⟨[], ["a"], [("a", payloadAllowlist)]⟩ [⟨"a", JVal.str "72"⟩] rfl

/-- C6: a send to a connection the transport reports as gone deletes that
connection from the table, delivers nothing, and raises nothing; inside a
broadcast, such a target contributes exactly the registry cleanup and the
loop proceeds with the remaining targets from the cleaned state. -/
theorem send_dead_connection_cleanup (st : WsState) (cid : String) (p : JVal)
    (t : Target) (ts : List Target) (data m : JVal)
    (hdead : st.live.contains cid = false)
    (hdead2 : st.live.contains t.cid = false)
    (hm : recipientMessage data t = Except.ok m) :
    Sender.send st cid p = { st with table := Storage.delete_connection st.table cid } ∧
    Sender.broadcast st (t :: ts) data =
      Except.map (fun p => (p.1, t :: p.2))
        (Sender.broadcast { st with table := Storage.delete_connection st.table t.cid } ts data) := by
  constructor
  · unfold Sender.send
    rw [if_neg (by rw [hdead]; exact Bool.false_ne_true)]
  · have hsend : Sender.send st t.cid m
        = { st with table := Storage.delete_connection st.table t.cid } := by
      unfold Sender.send
      rw [if_neg (by rw [hdead2]; exact Bool.false_ne_true)]
    cases hb : broadcastLoop data { st with table := Storage.delete_connection st.table t.cid } ts with
    | ok s => simp [Sender.broadcast, broadcastLoop, hm, hsend, hb, Except.map]
    | error e => simp [Sender.broadcast, broadcastLoop, hm, hsend, hb, Except.map]

/-- Witness for C6: the dead target is cleaned up and the later live
target still receives its message. -/
theorem send_dead_connection_cleanup_witness :
    Sender.send ⟨[⟨"dead", JVal.str "m", JVal.str "9", 0⟩], ["b"], []⟩ "dead" payloadAllowlist
      = { table := Storage.delete_connection [⟨"dead", JVal.str "m", JVal.str "9", 0⟩] "dead",
          live := ["b"], outbox := [] } ∧
    Sender.broadcast ⟨[⟨"dead", JVal.str "m", JVal.str "9", 0⟩], ["b"], []⟩
        ([⟨"dead", JVal.str "72"⟩, ⟨"b", JVal.str "72"⟩] : List Target) payloadAllowlist =
      Except.map (fun p => (p.1, (⟨"dead", JVal.str "72"⟩ : Target) :: p.2))
        (Sender.broadcast
          { table := Storage.delete_connection [⟨"dead", JVal.str "m", JVal.str "9", 0⟩] "dead",
            live := ["b"], outbox := [] }
          ([⟨"b", JVal.str "72"⟩] : List Target) payloadAllowlist) := by
  have h := send_dead_connection_cleanup
    ⟨[⟨"dead", JVal.str "m", JVal.str "9", 0⟩], ["b"], []⟩ "dead" payloadAllowlist
    ⟨"dead", JVal.str "72"⟩ [⟨"b", JVal.str "72"⟩] payloadAllowlist payloadAllowlist
    rfl rfl rfl
  exact h

/-- C7: for a frontend-role message, an empty (falsy) merchant id or user
id makes `handle` raise the scope error (`TypeError`, the source's
`InvalidScopeError`) which propagates to the caller with the state — in
particular the registry — untouched; with both truthy the registration is
written. -/
theorem handle_frontend_scope_validation (st : WsState) (cid : String)
    (data aud u idb mc : JVal) (now : Nat)
    (hcl : getClient data = Except.ok (some (JVal.str "frontend")))
    (hau : pyGetDefault data "audience" (JVal.obj []) = Except.ok aud)
    (hu : pyGetDefault aud "data" (JVal.str "") = Except.ok u)
    (hid : pyGetDefault data "id" (JVal.obj []) = Except.ok idb)
    (hmc : pyGetDefault idb "merchant_id" (JVal.str "") = Except.ok mc) :
    ((mc.truthy && u.truthy) = false →
      Handler.handle st cid (some data) now = Except.error (PyErr.typeError, st)) ∧
    ((mc.truthy && u.truthy) = true →
      Handler.handle st cid (some data) now =
        Except.ok { st with table :=
          Storage.set_user_by_connection_id st.table cid mc u now }) := by
  have hff : JVal.beq (JVal.str "frontend") (JVal.str "frontend") = true := by decide
  constructor <;> intro hv <;>
    simp [Handler.handle, withSt, hcl, hau, hu, hid, hmc, hff,
      Handler.handle_frontend, hv]

/-- The frontend message of the test fixture with an empty user id. -/
def frontendEmptyUser : JVal :=
  .obj [("id", .obj [("type", .str "frontend"), ("merchant_id", .str "m")]),
        ("audience", .obj [("data", .str "")])]

/-- The frontend message of the test fixture with a non-empty user id. -/
def frontendFullScope : JVal :=
  .obj [("id", .obj [("type", .str "frontend"), ("merchant_id", .str "m")]),
        ("audience", .obj [("data", .str "u1")])]

/-- Witness for C7: the error path raises with the state untouched, the
valid path writes the registration. -/
theorem handle_frontend_scope_validation_witness :
    Handler.handle ⟨[], [], []⟩ "cid1" (some frontendEmptyUser) 5
      = Except.error (PyErr.typeError, (⟨[], [], []⟩ : WsState)) ∧
    Handler.handle ⟨[], [], []⟩ "cid1" (some frontendFullScope) 5
      = Except.ok
          ⟨Storage.set_user_by_connection_id [] "cid1" (JVal.str "m") (JVal.str "u1") 5,
           [], []⟩ :=
  ⟨(handle_frontend_scope_validation ⟨[], [], []⟩ "cid1" frontendEmptyUser
      (JVal.obj [("data", JVal.str "")]) (JVal.str "")
      (JVal.obj [("type", JVal.str "frontend"), ("merchant_id", JVal.str "m")])
      (JVal.str "m") 5 rfl rfl rfl rfl rfl).1 rfl,
   (handle_frontend_scope_validation ⟨[], [], []⟩ "cid1" frontendFullScope
      (JVal.obj [("data", JVal.str "u1")]) (JVal.str "u1")
      (JVal.obj [("type", JVal.str "frontend"), ("merchant_id", JVal.str "m")])
      (JVal.str "m") 5 rfl rfl rfl rfl rfl).2 rfl⟩

/-- C8: for a backend-role message, an empty (falsy) merchant id or user
selector is swallowed inside `handle_backend` (the `except` arm logs it
and yields the empty target set), so `handle` returns without error and
without broadcasting; with both truthy, the targets are resolved and the
broadcast runs exactly when the resolved set is non-empty. -/
theorem handle_backend_scope_validation (st : WsState) (cid : String)
    (data aud u idb mc : JVal) (now : Nat)
    (hcl : getClient data = Except.ok (some (JVal.str "backend")))
    (hau : pyGetDefault data "audience" (JVal.obj []) = Except.ok aud)
    (hu : pyGetDefault aud "data" (JVal.str "") = Except.ok u)
    (hid : pyGetDefault data "id" (JVal.obj []) = Except.ok idb)
    (hmc : pyGetDefault idb "merchant_id" (JVal.str "") = Except.ok mc) :
    ((mc.truthy && u.truthy) = false →
      Handler.handle st cid (some data) now = Except.ok st ∧
      Handler.handle_backend st.table mc u = []) ∧
    ((mc.truthy && u.truthy) = true →
      Handler.handle_backend st.table mc u =
        (match Storage.get_connection_ids_by_reference st.table mc u with
         | .ok l => l
         | .error _ => []) ∧
      Handler.handle st cid (some data) now =
        (if (Handler.handle_backend st.table mc u).isEmpty then Except.ok st
         else
           match Sender.broadcast st (Handler.handle_backend st.table mc u) data with
           | .ok (st', _) => Except.ok st'
           | .error e => Except.error e)) := by
  have hbf : JVal.beq (JVal.str "backend") (JVal.str "frontend") = false := by decide
  have hbb : JVal.beq (JVal.str "backend") (JVal.str "backend") = true := by decide
  constructor
  · intro hv
    have hempty : Handler.handle_backend st.table mc u = [] := by
      simp [Handler.handle_backend, hv]
    refine ⟨?_, hempty⟩
    simp [Handler.handle, withSt, hcl, hau, hu, hid, hmc, hbf, hbb, hempty]
  · intro hv
    constructor
    · simp [Handler.handle_backend, hv]
    · simp only [Handler.handle, withSt, hcl, hau, hu, hid, hmc, hbf, hbb,
        Bool.false_eq_true, if_false, if_true]

/-- A backend message with no merchant id in the identity block. -/
def backendNoMerchant : JVal :=
  .obj [("id", .obj [("type", .str "backend")]),
        ("audience", .obj [("data", .str "__all__"), ("message", .arr [])]),
        ("content", .obj [("message", .str "hi")])]

/-- A backend message with a merchant id and the sentinel selector. -/
def backendFullScope : JVal :=
  .obj [("id", .obj [("type", .str "backend"), ("merchant_id", .str "m")]),
        ("audience", .obj [("data", .str "__all__"), ("message", .arr [])]),
        ("content", .obj [("message", .str "hi")])]

/-- Witness for C8: failure path (missing merchant) swallowed with an
empty target set, success path reduced to resolve-then-broadcast. -/
theorem handle_backend_scope_validation_witness :
    (Handler.handle ⟨[], [], []⟩ "x" (some backendNoMerchant) 0
        = Except.ok (⟨[], [], []⟩ : WsState) ∧
      Handler.handle_backend [] (JVal.str "") (JVal.str "__all__") = []) ∧
    (Handler.handle_backend [] (JVal.str "m") (JVal.str "__all__") =
        (match Storage.get_connection_ids_by_reference [] (JVal.str "m") (JVal.str "__all__") with
         | .ok l => l
         | .error _ => []) ∧
      Handler.handle ⟨[], [], []⟩ "x" (some backendFullScope) 0 =
        (if (Handler.handle_backend [] (JVal.str "m") (JVal.str "__all__")).isEmpty then
          Except.ok (⟨[], [], []⟩ : WsState)
         else
           match Sender.broadcast ⟨[], [], []⟩
               (Handler.handle_backend [] (JVal.str "m") (JVal.str "__all__"))
               backendFullScope with
           | .ok (st', _) => Except.ok st'
           | .error e => Except.error e)) :=
  ⟨(handle_backend_scope_validation ⟨[], [], []⟩ "x" backendNoMerchant
      (JVal.obj [("data", JVal.str "__all__"), ("message", JVal.arr [])])
      (JVal.str "__all__") (JVal.obj [("type", JVal.str "backend")]) (JVal.str "") 0
      rfl rfl rfl rfl rfl).1 rfl,
   (handle_backend_scope_validation ⟨[], [], []⟩ "x" backendFullScope
      (JVal.obj [("data", JVal.str "__all__"), ("message", JVal.arr [])])
      (JVal.str "__all__")
      (JVal.obj [("type", JVal.str "backend"), ("merchant_id", JVal.str "m")])
      (JVal.str "m") 0 rfl rfl rfl rfl rfl).2 rfl⟩
